import Mathlib

/-!
Verification of the signal-detection engine in `src/services/strategyService.ts`
(data model from `src/types.ts`).

The embedding models JavaScript numbers as exact rationals (`ℚ`).  Machine
indices are natural numbers; the one place the source compares an index with
`candles.length - 2` (which can be negative in JavaScript) is modelled with
integer arithmetic.  Array accesses `candles[i]` are modelled by `getC`,
a total lookup returning a degenerate candle out of bounds; the frame theorem
for claim C10 shows the degenerate value is never consulted.

`Math.sqrt` (used only to build the Bollinger band edges, which the detector
only ever compares against a price) is not representable as a computable map
on `ℚ`.  The two comparisons `low < middle - 2·σ` and `high > middle + 2·σ`
are therefore embedded by the exactly equivalent square-free tests
`0 < middle - low ∧ BB_STD_DEV^2·variance < (middle - low)^2` (and its
mirror); the lemma `lowBelowLower_iff_real` and its mirror prove the exact
equivalence with the real-number formulation using `Real.sqrt`.
-/

set_option maxRecDepth 400000

/-- OHLCV bar from `src/types.ts` (`interface Candle`). -/
structure Candle where
  time : ℤ
  «open» : ℚ
  high : ℚ
  low : ℚ
  close : ℚ
  volume : ℚ
deriving DecidableEq

/-- Pattern kinds from `src/types.ts` (`enum SignalType`). -/
inductive SignalType where
  | HAMMER
  | SHOOTING_STAR
  | BULLISH_ENGULFING
  | BEARISH_ENGULFING
  | DOJI
  | DOUBLE_BOTTOM
  | DOUBLE_TOP
  | HEAD_AND_SHOULDERS
  | INVERSE_H_AND_S
  | FAST_REBOUND_BOTTOM
  | FAST_REJECTION_TOP
  | BULLISH_INSIDE_BAR
  | BEARISH_INSIDE_BAR
  | MORNING_STAR
  | EVENING_STAR
  | BULLISH_SPINNING_TOP
  | BEARISH_SPINNING_TOP
  | BOLLINGER_UPPER_REJECTION
  | BOLLINGER_LOWER_REJECTION
  | INSTITUTIONAL_SPRING
  | INSTITUTIONAL_UPTHRUST
  | SUDDEN_REVERSAL_UP
  | SUDDEN_REVERSAL_DOWN
  | TWEEZERS_TOP
  | TWEEZERS_BOTTOM
  | NONE
deriving DecidableEq

/-- Result record of `detectSignal` (`{ type, stochRsi, score }`). -/
structure SignalResult where
  type : SignalType
  stochRsi : ℚ
  score : ℚ
deriving DecidableEq

/-- Signal record from `src/types.ts` (`interface TradingSignal`); the optional
`aiConfirmation` field is never set by the scanner and is omitted. -/
structure TradingSignal where
  candle : Candle
  type : SignalType
  timestamp : ℤ
  isConfirmed : Bool
  score : ℚ
  stochRsi : ℚ
deriving DecidableEq

/-- Constant `RECENT_LOOKBACK = 50` from the source. -/
abbrev RECENT_LOOKBACK : ℕ := 50

/-- Constant `RSI_PERIOD = 14` from the source. -/
abbrev RSI_PERIOD : ℕ := 14

/-- Constant `STOCH_PERIOD = 14` from the source. -/
abbrev STOCH_PERIOD : ℕ := 14

/-- Constant `BB_PERIOD = 20` from the source. -/
abbrev BB_PERIOD : ℕ := 20

/-- Constant `BB_STD_DEV = 2.0` from the source. -/
abbrev BB_STD_DEV : ℚ := 2

/-- Constant `PINBA_WICK_PERCENT = 0.5` from the source. -/
abbrev PINBA_WICK_PERCENT : ℚ := 1/2

/-- Constant `ULTRA_WICK_RATIO = 3.0` from the source (renamed). -/
abbrev ULTRA_WICK_MULT : ℚ := 3

/-- Constant `CLIMATIC_VOLUME_MULT = 3` from the source. -/
abbrev CLIMATIC_VOLUME_MULT : ℚ := 3

/-- Constant `REVERSAL_VOLUME_MULT = 2` from the source. -/
abbrev REVERSAL_VOLUME_MULT : ℚ := 2

/-- Constant `DOJI_BODY_THRESHOLD = 0.05` from the source. -/
abbrev DOJI_BODY_THRESHOLD : ℚ := 1/20

/-- Constant `TWEEZER_TOLERANCE = 0.0001` from the source. -/
abbrev TWEEZER_TOLERANCE : ℚ := 1/10000

/-- Placeholder candle used as the out-of-bounds default of `getC`. -/
def degenerateCandle : Candle := ⟨0, 0, 0, 0, 0, 0⟩

/-- Total model of the array access `candles[i]`. -/
def getC (candles : List Candle) (i : ℕ) : Candle :=
  candles.getD i degenerateCandle

/-- Model of `Math.min(...xs)` on a nonempty list (`0` for the empty list,
which the source never produces). -/
def listMin : List ℚ → ℚ
  | [] => 0
  | x :: xs => xs.foldl min x

/-- Model of `Math.max(...xs)` on a nonempty list. -/
def listMax : List ℚ → ℚ
  | [] => 0
  | x :: xs => xs.foldl max x

/-- Close-over-close changes summed by `calculateRSIValue`: the loop runs
`i = index - RSI_PERIOD + 1 .. index` and reads `candles[i].close - candles[i-1].close`. -/
def rsiChanges (candles : List Candle) (index : ℕ) : List ℚ :=
  (List.range' (index - RSI_PERIOD + 1) RSI_PERIOD).map
    (fun i => (getC candles i).close - (getC candles (i - 1)).close)

/-- Accumulated `gains` of `calculateRSIValue` (`change >= 0` branch). -/
def rsiGains (candles : List Candle) (index : ℕ) : ℚ :=
  ((rsiChanges candles index).map (fun x => if 0 ≤ x then x else 0)).sum

/-- Accumulated `losses` of `calculateRSIValue` (`change < 0` branch, negated). -/
def rsiLosses (candles : List Candle) (index : ℕ) : ℚ :=
  ((rsiChanges candles index).map (fun x => if 0 ≤ x then 0 else -x)).sum

/-- Model of `calculateRSIValue` from `strategyService.ts`. -/
def calculateRSIValue (candles : List Candle) (index : ℕ) : ℚ :=
  if index < RSI_PERIOD then 50
  else if rsiLosses candles index = 0 then 100
  else
    100 - 100 / (1 + (rsiGains candles index / 14) / (rsiLosses candles index / 14))

/-- The `rsiValues` window built by `calculateStochRSI`
(`i = index - STOCH_PERIOD + 1 .. index`). -/
def rsiWindow (candles : List Candle) (index : ℕ) : List ℚ :=
  (List.range' (index - STOCH_PERIOD + 1) STOCH_PERIOD).map (calculateRSIValue candles)

/-- Model of `calculateStochRSI` from `strategyService.ts`. -/
def calculateStochRSI (candles : List Candle) (index : ℕ) : ℚ :=
  if index < RSI_PERIOD + STOCH_PERIOD then 50
  else if listMax (rsiWindow candles index) = listMin (rsiWindow candles index) then 0
  else
    ((rsiWindow candles index).getLastD 0 - listMin (rsiWindow candles index)) /
      (listMax (rsiWindow candles index) - listMin (rsiWindow candles index)) * 100

/-- Result record of `calculateBollingerBands`.  The source stores
`{middle, upper, lower}` with `upper = middle + 2·√variance` and
`lower = middle - 2·√variance`; since the square root of a rational is not a
computable rational, the embedding keeps `middle` and `variance` and models
the two comparisons the detector performs against `upper`/`lower` exactly
(see `lowBelowLower` and `highAboveUpper`). -/
structure BollingerBands where
  middle : ℚ
  variance : ℚ
deriving DecidableEq

/-- The 20-bar window `candles.slice(index - BB_PERIOD + 1, index + 1)`. -/
def bbWindow (candles : List Candle) (index : ℕ) : List Candle :=
  (candles.drop (index - BB_PERIOD + 1)).take BB_PERIOD

/-- Model of `calculateBollingerBands` from `strategyService.ts` (middle band and
population variance of the 20-bar close window; `null` becomes `none`). -/
def calculateBollingerBands (candles : List Candle) (index : ℕ) : Option BollingerBands :=
  if index < BB_PERIOD then none
  else
    some
      { middle := ((bbWindow candles index).map (fun c => c.close)).sum / (BB_PERIOD : ℚ)
        variance :=
          ((bbWindow candles index).map
            (fun c =>
              (c.close - ((bbWindow candles index).map (fun c => c.close)).sum / (BB_PERIOD : ℚ)) ^ 2)).sum /
            (BB_PERIOD : ℚ) }

/-- The comparison `x < bb.lower`, that is `x < middle - BB_STD_DEV·√variance`,
in exact square-free form (see `lowBelowLower_iff_real`). -/
def lowBelowLower (x : ℚ) (b : BollingerBands) : Prop :=
  0 < b.middle - x ∧ BB_STD_DEV ^ 2 * b.variance < (b.middle - x) ^ 2

/-- The comparison `x > bb.upper`, that is `x > middle + BB_STD_DEV·√variance`,
in exact square-free form (see `highAboveUpper_iff_real`). -/
def highAboveUpper (x : ℚ) (b : BollingerBands) : Prop :=
  0 < x - b.middle ∧ BB_STD_DEV ^ 2 * b.variance < (x - b.middle) ^ 2

instance (x : ℚ) (b : BollingerBands) : Decidable (lowBelowLower x b) :=
  inferInstanceAs (Decidable (_ ∧ _))

instance (x : ℚ) (b : BollingerBands) : Decidable (highAboveUpper x b) :=
  inferInstanceAs (Decidable (_ ∧ _))

/-- Model of the JavaScript truthiness test `bb && ... x < bb.lower`. -/
def optLowBelowLower : Option BollingerBands → ℚ → Prop
  | none, _ => False
  | some b, x => lowBelowLower x b

/-- Model of the JavaScript truthiness test `bb && ... x > bb.upper`. -/
def optHighAboveUpper : Option BollingerBands → ℚ → Prop
  | none, _ => False
  | some b, x => highAboveUpper x b

instance : (o : Option BollingerBands) → (x : ℚ) → Decidable (optLowBelowLower o x)
  | none, _ => inferInstanceAs (Decidable False)
  | some b, x => inferInstanceAs (Decidable (lowBelowLower x b))

instance : (o : Option BollingerBands) → (x : ℚ) → Decidable (optHighAboveUpper o x)
  | none, _ => inferInstanceAs (Decidable False)
  | some b, x => inferInstanceAs (Decidable (highAboveUpper x b))

/-- Derived quantity `body = Math.max(0.0001, Math.abs(curr.close - curr.open))`. -/
def currBody (candles : List Candle) (index : ℕ) : ℚ :=
  max (1/10000) |(getC candles index).close - (getC candles index).«open»|

/-- Derived quantity `upperWick = curr.high - Math.max(curr.open, curr.close)`. -/
def upperWick (candles : List Candle) (index : ℕ) : ℚ :=
  (getC candles index).high - max (getC candles index).«open» (getC candles index).close

/-- Derived quantity `lowerWick = Math.min(curr.open, curr.close) - curr.low`. -/
def lowerWick (candles : List Candle) (index : ℕ) : ℚ :=
  min (getC candles index).«open» (getC candles index).close - (getC candles index).low

/-- Derived quantity `prevBody = Math.abs(prev.close - prev.open)` (no epsilon floor). -/
def prevBody (candles : List Candle) (index : ℕ) : ℚ :=
  |(getC candles (index - 1)).close - (getC candles (index - 1)).«open»|

/-- The 50-bar slice `candles.slice(index - RECENT_LOOKBACK, index)`. -/
def recentSlices (candles : List Candle) (index : ℕ) : List Candle :=
  (candles.drop (index - RECENT_LOOKBACK)).take RECENT_LOOKBACK

/-- Mean volume `avgVol` of the 50 bars preceding `index`. -/
def avgVol (candles : List Candle) (index : ℕ) : ℚ :=
  ((recentSlices candles index).map (fun c => c.volume)).sum / (RECENT_LOOKBACK : ℚ)

/-- Derived quantity `recentLow = Math.min(...recentSlices.map(c => c.low))`. -/
def recentLow (candles : List Candle) (index : ℕ) : ℚ :=
  listMin ((recentSlices candles index).map (fun c => c.low))

/-- Derived quantity `recentHigh = Math.max(...recentSlices.map(c => c.high))`. -/
def recentHigh (candles : List Candle) (index : ℕ) : ℚ :=
  listMax ((recentSlices candles index).map (fun c => c.high))

/-- Derived quantity `volMult = curr.volume / avgVol`. -/
def volMult (candles : List Candle) (index : ℕ) : ℚ :=
  (getC candles index).volume / avgVol candles index

/-- Derived quantity `highsDiff = Math.abs(curr.high - prev.high) / curr.high`. -/
def tweezerHighsDiff (candles : List Candle) (index : ℕ) : ℚ :=
  |(getC candles index).high - (getC candles (index - 1)).high| / (getC candles index).high

/-- Derived quantity `lowsDiff = Math.abs(curr.low - prev.low) / curr.low`. -/
def tweezerLowsDiff (candles : List Candle) (index : ℕ) : ℚ :=
  |(getC candles index).low - (getC candles (index - 1)).low| / (getC candles index).low

/-- Rule 1 condition (climatic institutional spring), outer and inner `if`
fused: `bb && lowerWick > body·3 && stochRsi < 20` and then
`volMult > 3 && isDeepSweep && curr.low < bb.lower && next.close > curr.low`. -/
def springCond (candles : List Candle) (index : ℕ) : Prop :=
  calculateBollingerBands candles index ≠ none ∧
  lowerWick candles index > currBody candles index * ULTRA_WICK_MULT ∧
  calculateStochRSI candles index < 20 ∧
  volMult candles index > CLIMATIC_VOLUME_MULT ∧
  (getC candles index).low < recentLow candles index ∧
  optLowBelowLower (calculateBollingerBands candles index) (getC candles index).low ∧
  (getC candles (index + 1)).close > (getC candles index).low

/-- Rule 2 condition (institutional upthrust), outer and inner `if` fused. -/
def upthrustCond (candles : List Candle) (index : ℕ) : Prop :=
  calculateBollingerBands candles index ≠ none ∧
  upperWick candles index > currBody candles index * ULTRA_WICK_MULT ∧
  calculateStochRSI candles index > 80 ∧
  volMult candles index > CLIMATIC_VOLUME_MULT ∧
  (getC candles index).high > recentHigh candles index ∧
  optHighAboveUpper (calculateBollingerBands candles index) (getC candles index).high ∧
  (getC candles (index + 1)).close < (getC candles index).high

/-- Rule 3 condition (tweezers top). -/
def tweezersTopCond (candles : List Candle) (index : ℕ) : Prop :=
  tweezerHighsDiff candles index < TWEEZER_TOLERANCE ∧
  (getC candles (index - 1)).close > (getC candles (index - 1)).«open» ∧
  (getC candles index).close < (getC candles index).«open» ∧
  calculateStochRSI candles index > 85 ∧
  (getC candles index).high ≥ recentHigh candles index

/-- Rule 4 condition (tweezers bottom). -/
def tweezersBottomCond (candles : List Candle) (index : ℕ) : Prop :=
  tweezerLowsDiff candles index < TWEEZER_TOLERANCE ∧
  (getC candles (index - 1)).close < (getC candles (index - 1)).«open» ∧
  (getC candles index).close > (getC candles index).«open» ∧
  calculateStochRSI candles index < 15 ∧
  (getC candles index).low ≤ recentLow candles index

/-- Rule 5 condition (sudden reversal up), outer and inner `if` fused. -/
def suddenUpCond (candles : List Candle) (index : ℕ) : Prop :=
  (getC candles (index - 1)).close < (getC candles (index - 1)).«open» ∧
  (getC candles (index - 2)).close < (getC candles (index - 2)).«open» ∧
  calculateStochRSI candles index < 20 ∧
  (getC candles index).close > (getC candles index).«open» ∧
  (getC candles index).close > (getC candles (index - 1)).«open» ∧
  volMult candles index > REVERSAL_VOLUME_MULT

/-- Rule 6 condition (sudden reversal down), outer and inner `if` fused. -/
def suddenDownCond (candles : List Candle) (index : ℕ) : Prop :=
  (getC candles (index - 1)).close > (getC candles (index - 1)).«open» ∧
  (getC candles (index - 2)).close > (getC candles (index - 2)).«open» ∧
  calculateStochRSI candles index > 80 ∧
  (getC candles index).close < (getC candles index).«open» ∧
  (getC candles index).close < (getC candles (index - 1)).«open» ∧
  volMult candles index > REVERSAL_VOLUME_MULT

/-- Rule 7 condition (bullish engulfing), outer and inner `if` fused. -/
def bullishEngulfCond (candles : List Candle) (index : ℕ) : Prop :=
  (getC candles index).close > (getC candles index).«open» ∧
  (getC candles (index - 1)).close < (getC candles (index - 1)).«open» ∧
  currBody candles index > prevBody candles index ∧
  calculateStochRSI candles index < 20 ∧
  (getC candles index).low ≤ recentLow candles index

/-- Rule 8 condition (bearish engulfing), outer and inner `if` fused. -/
def bearishEngulfCond (candles : List Candle) (index : ℕ) : Prop :=
  (getC candles index).close < (getC candles index).«open» ∧
  (getC candles (index - 1)).close > (getC candles (index - 1)).«open» ∧
  currBody candles index > prevBody candles index ∧
  calculateStochRSI candles index > 80 ∧
  (getC candles index).high ≥ recentHigh candles index

/-- Rule 9 condition (hammer). -/
def hammerCond (candles : List Candle) (index : ℕ) : Prop :=
  lowerWick candles index ≥ ((getC candles index).high - (getC candles index).low) * PINBA_WICK_PERCENT ∧
  calculateStochRSI candles index ≤ 20 ∧
  (getC candles index).low ≤ recentLow candles index ∧
  (getC candles (index + 1)).close > (getC candles (index + 1)).«open»

/-- Rule 10 condition (shooting star). -/
def shootingStarCond (candles : List Candle) (index : ℕ) : Prop :=
  upperWick candles index ≥ ((getC candles index).high - (getC candles index).low) * PINBA_WICK_PERCENT ∧
  calculateStochRSI candles index ≥ 80 ∧
  (getC candles index).high ≥ recentHigh candles index ∧
  (getC candles (index + 1)).close < (getC candles (index + 1)).«open»

/-- Rule 11 condition (doji). -/
def dojiCond (candles : List Candle) (index : ℕ) : Prop :=
  currBody candles index / ((getC candles index).high - (getC candles index).low) < DOJI_BODY_THRESHOLD ∧
  ((getC candles index).low ≤ recentLow candles index ∨
    (getC candles index).high ≥ recentHigh candles index)

instance (c : List Candle) (i : ℕ) : Decidable (springCond c i) :=
  inferInstanceAs (Decidable (_ ∧ _ ∧ _ ∧ _ ∧ _ ∧ _ ∧ _))

instance (c : List Candle) (i : ℕ) : Decidable (upthrustCond c i) :=
  inferInstanceAs (Decidable (_ ∧ _ ∧ _ ∧ _ ∧ _ ∧ _ ∧ _))

instance (c : List Candle) (i : ℕ) : Decidable (tweezersTopCond c i) :=
  inferInstanceAs (Decidable (_ ∧ _ ∧ _ ∧ _ ∧ _))

instance (c : List Candle) (i : ℕ) : Decidable (tweezersBottomCond c i) :=
  inferInstanceAs (Decidable (_ ∧ _ ∧ _ ∧ _ ∧ _))

instance (c : List Candle) (i : ℕ) : Decidable (suddenUpCond c i) :=
  inferInstanceAs (Decidable (_ ∧ _ ∧ _ ∧ _ ∧ _ ∧ _))

instance (c : List Candle) (i : ℕ) : Decidable (suddenDownCond c i) :=
  inferInstanceAs (Decidable (_ ∧ _ ∧ _ ∧ _ ∧ _ ∧ _))

instance (c : List Candle) (i : ℕ) : Decidable (bullishEngulfCond c i) :=
  inferInstanceAs (Decidable (_ ∧ _ ∧ _ ∧ _ ∧ _))

instance (c : List Candle) (i : ℕ) : Decidable (bearishEngulfCond c i) :=
  inferInstanceAs (Decidable (_ ∧ _ ∧ _ ∧ _ ∧ _))

instance (c : List Candle) (i : ℕ) : Decidable (hammerCond c i) :=
  inferInstanceAs (Decidable (_ ∧ _ ∧ _ ∧ _))

instance (c : List Candle) (i : ℕ) : Decidable (shootingStarCond c i) :=
  inferInstanceAs (Decidable (_ ∧ _ ∧ _ ∧ _))

instance (c : List Candle) (i : ℕ) : Decidable (dojiCond c i) :=
  inferInstanceAs (Decidable (_ ∧ _))

/-- Rule 1 score: `min(95, 60 + min(20, (volMult-2)·10) + (isDeepSweep ? 10 : 0)
+ (stochRsi < 15 ? 10 : 0))`. -/
def springScore (candles : List Candle) (index : ℕ) : ℚ :=
  min 95 (60 + min 20 ((volMult candles index - 2) * 10) +
    (if (getC candles index).low < recentLow candles index then 10 else 0) +
    (if calculateStochRSI candles index < 15 then 10 else 0))

/-- Rule 2 score (mirror of `springScore`). -/
def upthrustScore (candles : List Candle) (index : ℕ) : ℚ :=
  min 95 (60 + min 20 ((volMult candles index - 2) * 10) +
    (if (getC candles index).high > recentHigh candles index then 10 else 0) +
    (if calculateStochRSI candles index > 85 then 10 else 0))

/-- Rule 3 score: `50 + (stochRsi > 90 ? 15 : 5) + volBonus + (highsDiff < 0.00005 ? 10 : 0)`. -/
def tweezersTopScore (candles : List Candle) (index : ℕ) : ℚ :=
  50 + (if calculateStochRSI candles index > 90 then 15 else 5) +
    (if (getC candles index).volume > avgVol candles index * (3/2) then 15 else 0) +
    (if tweezerHighsDiff candles index < 1/20000 then 10 else 0)

/-- Rule 4 score (mirror of `tweezersTopScore`). -/
def tweezersBottomScore (candles : List Candle) (index : ℕ) : ℚ :=
  50 + (if calculateStochRSI candles index < 10 then 15 else 5) +
    (if (getC candles index).volume > avgVol candles index * (3/2) then 15 else 0) +
    (if tweezerLowsDiff candles index < 1/20000 then 10 else 0)

/-- Rule 5 score: `45 + min(25, (volMult-1)·15) + (close > prev2.open ? 15 : 5)`. -/
def suddenUpScore (candles : List Candle) (index : ℕ) : ℚ :=
  45 + min 25 ((volMult candles index - 1) * 15) +
    (if (getC candles index).close > (getC candles (index - 2)).«open» then 15 else 5)

/-- Rule 6 score (mirror of `suddenUpScore`). -/
def suddenDownScore (candles : List Candle) (index : ℕ) : ℚ :=
  45 + min 25 ((volMult candles index - 1) * 15) +
    (if (getC candles index).close < (getC candles (index - 2)).«open» then 15 else 5)

/-- Rules 7 and 8 score: `40 + (volMult > 1.2 ? 15 : 0) + (body/prevBody > 1.5 ? 20 : 10)`. -/
def engulfScore (candles : List Candle) (index : ℕ) : ℚ :=
  40 + (if volMult candles index > 6/5 then 15 else 0) +
    (if currBody candles index / prevBody candles index > 3/2 then 20 else 10)

/-- Rule 9 score: `35 + (lowerWick/body > 2 ? 20 : 10) + (volMult > 1.2 ? 15 : 0)`. -/
def hammerScore (candles : List Candle) (index : ℕ) : ℚ :=
  35 + (if lowerWick candles index / currBody candles index > 2 then 20 else 10) +
    (if volMult candles index > 6/5 then 15 else 0)

/-- Rule 10 score (mirror of `hammerScore`). -/
def shootingStarScore (candles : List Candle) (index : ℕ) : ℚ :=
  35 + (if upperWick candles index / currBody candles index > 2 then 20 else 10) +
    (if volMult candles index > 6/5 then 15 else 0)

/-- Rule 11 score: `30 + (stochRsi extreme ? 30 : 0) + (volMult > 1.5 ? 15 : 0)`. -/
def dojiScore (candles : List Candle) (index : ℕ) : ℚ :=
  30 + (if calculateStochRSI candles index < 20 ∨ calculateStochRSI candles index > 80 then 30 else 0) +
    (if volMult candles index > 3/2 then 15 else 0)

/-- Model of `detectSignal` from `strategyService.ts`.  The rules appear in the source
order; each source rule's nested `if`s are fused into one condition, which
preserves the first-match-wins control flow because the branches have no side
effects.  The guard `index > candles.length - 2` is evaluated over `ℤ`
because the JavaScript expression can be negative. -/
def detectSignal (candles : List Candle) (index : ℕ) : SignalResult :=
  if index < RECENT_LOOKBACK ∨ (index : ℤ) > (candles.length : ℤ) - 2 then
    ⟨SignalType.NONE, 50, 0⟩
  else if (getC candles index).high - (getC candles index).low = 0 then
    ⟨SignalType.NONE, calculateStochRSI candles index, 0⟩
  else if springCond candles index then
    ⟨SignalType.INSTITUTIONAL_SPRING, calculateStochRSI candles index, springScore candles index⟩
  else if upthrustCond candles index then
    ⟨SignalType.INSTITUTIONAL_UPTHRUST, calculateStochRSI candles index, upthrustScore candles index⟩
  else if tweezersTopCond candles index then
    ⟨SignalType.TWEEZERS_TOP, calculateStochRSI candles index, tweezersTopScore candles index⟩
  else if tweezersBottomCond candles index then
    ⟨SignalType.TWEEZERS_BOTTOM, calculateStochRSI candles index, tweezersBottomScore candles index⟩
  else if suddenUpCond candles index then
    ⟨SignalType.SUDDEN_REVERSAL_UP, calculateStochRSI candles index, suddenUpScore candles index⟩
  else if suddenDownCond candles index then
    ⟨SignalType.SUDDEN_REVERSAL_DOWN, calculateStochRSI candles index, suddenDownScore candles index⟩
  else if bullishEngulfCond candles index then
    ⟨SignalType.BULLISH_ENGULFING, calculateStochRSI candles index, engulfScore candles index⟩
  else if bearishEngulfCond candles index then
    ⟨SignalType.BEARISH_ENGULFING, calculateStochRSI candles index, engulfScore candles index⟩
  else if hammerCond candles index then
    ⟨SignalType.HAMMER, calculateStochRSI candles index, hammerScore candles index⟩
  else if shootingStarCond candles index then
    ⟨SignalType.SHOOTING_STAR, calculateStochRSI candles index, shootingStarScore candles index⟩
  else if dojiCond candles index then
    ⟨SignalType.DOJI, calculateStochRSI candles index, dojiScore candles index⟩
  else
    ⟨SignalType.NONE, calculateStochRSI candles index, 0⟩

/-- Model of `scanForSignals` from `strategyService.ts`: the loop
`for (i = 25; i < candles.length - 1; i++)`, pushing a `TradingSignal`
for every non-`NONE` detection, in index order. -/
def scanForSignals (candles : List Candle) : List TradingSignal :=
  (List.range' 25 (candles.length - 1 - 25)).filterMap (fun i =>
    if (detectSignal candles i).type = SignalType.NONE then none
    else
      some
        { candle := getC candles i
          type := (detectSignal candles i).type
          timestamp := (getC candles i).time
          isConfirmed := false
          score := (detectSignal candles i).score
          stochRsi := (detectSignal candles i).stochRsi })

/-- Convenience constructor for a degenerate "flat" bar (all prices equal). -/
def flatC (p v : ℚ) : Candle := ⟨0, p, p, p, p, v⟩

/-- A 53-bar sequence whose bar 51 satisfies both the institutional-spring
conditions and the doji conditions: closes run flat at 10000, step down to
9100, and bar 51 is a near-doji (body 1) with a deep low at 5000 on 4x the
average volume.  Its Stochastic-RSI at index 51 is exactly 10. -/
def springSeq : List Candle :=
  List.replicate 39 (flatC 10000 1) ++
  [flatC 9900 1, flatC 9800 1, flatC 9700 1, flatC 9600 1, flatC 9500 1,
   flatC 9400 1, flatC 9300 1, flatC 9200 1, flatC 9100 1,
   flatC 9100 1, flatC 9100 1, flatC 9100 1,
   ⟨0, 9201, 9201, 5000, 9200, 4⟩,
   flatC 9100 1]

/-- A 53-bar sequence triggering the sudden-reversal-up rule at index 51 with
`volMult = 2.5`, hence the non-integral score `45 + 22.5 + 15 = 82.5`. -/
def revSeq : List Candle :=
  List.replicate 39 (flatC 10000 1) ++
  [flatC 9900 1, flatC 9800 1, flatC 9700 1, flatC 9600 1, flatC 9500 1,
   flatC 9400 1, flatC 9300 1, flatC 9200 1, flatC 9100 1,
   flatC 9100 1,
   ⟨0, 9150, 9150, 9100, 9100, 1⟩,
   ⟨0, 9150, 9150, 9100, 9100, 1⟩,
   ⟨0, 9150, 9200, 9150, 9200, 5/2⟩,
   flatC 9200 1]

/-- A 53-bar sequence triggering the tweezers-top rule at index 51 with
Stochastic-RSI exactly 92 and relative highs difference exactly `0.00007`
(inside the 0.0001 detection tolerance but outside the 0.00005 bonus
tolerance), so the `+10` bonus is not granted. -/
def tweezSeq : List Candle :=
  List.replicate 39 (flatC 1000000 1) ++
  [flatC 995000 1, flatC 990000 1,
   flatC 1000000 1, flatC 1010000 1, flatC 1020000 1, flatC 1030000 1,
   flatC 1040000 1, flatC 1050000 1, flatC 1060000 1, flatC 1070000 1,
   flatC 1080000 1,
   ⟨0, 1080000, 1199916, 1080000, 1090000, 1⟩,
   ⟨0, 1110000, 1200000, 1100000, 1105000, 1⟩,
   flatC 1105000 1]

/-- Variant of `tweezSeq` whose two matching highs are exactly equal, so the
`+10` tight-tolerance bonus is granted. -/
def tweezSeqTight : List Candle :=
  List.replicate 39 (flatC 1000000 1) ++
  [flatC 995000 1, flatC 990000 1,
   flatC 1000000 1, flatC 1010000 1, flatC 1020000 1, flatC 1030000 1,
   flatC 1040000 1, flatC 1050000 1, flatC 1060000 1, flatC 1070000 1,
   flatC 1080000 1,
   ⟨0, 1080000, 1200000, 1080000, 1090000, 1⟩,
   ⟨0, 1110000, 1200000, 1100000, 1105000, 1⟩,
   flatC 1105000 1]

/-- A 53-bar all-flat sequence and a copy that differs only in the final bar
(index 52): used to witness that `detectSignal` at index 50 reads no bar
beyond index 51. -/
def frameSeqA : List Candle :=
  List.replicate 52 (flatC 100 1) ++ [flatC 100 1]

/-- Copy of `frameSeqA` with a different bar at index 52. -/
def frameSeqB : List Candle :=
  List.replicate 52 (flatC 100 1) ++ [⟨7, 999, 999, 999, 999, 7⟩]

/-- Data-model validity of one bar (spec section 3): positive prices,
`high ≥ max(open, close)`, `low ≤ min(open, close)`, nonnegative volume. -/
def validCandle (b : Candle) : Prop :=
  0 < b.«open» ∧ 0 < b.high ∧ 0 < b.low ∧ 0 < b.close ∧
  max b.«open» b.close ≤ b.high ∧ b.low ≤ min b.«open» b.close ∧ 0 ≤ b.volume

/-- Data-model validity of a bar sequence (spec section 3): every bar valid
and timestamps strictly increasing. -/
def validSeq (l : List Candle) : Prop :=
  (∀ b ∈ l, validCandle b) ∧ l.Chain' (fun a b => a.time < b.time)

instance (b : Candle) : Decidable (validCandle b) :=
  inferInstanceAs (Decidable (_ ∧ _ ∧ _ ∧ _ ∧ _ ∧ _ ∧ _))

instance (l : List Candle) : Decidable (validSeq l) :=
  inferInstanceAs (Decidable (_ ∧ _))

lemma foldl_min_le (l : List ℚ) (a : ℚ) : l.foldl min a ≤ a := by
  induction l generalizing a with
  | nil => simp
  | cons x xs ih => exact le_trans (ih (min a x)) (min_le_left a x)

lemma foldl_min_le_of_mem {l : List ℚ} {x : ℚ} (a : ℚ) (h : x ∈ l) :
    l.foldl min a ≤ x := by
  induction l generalizing a with
  | nil => cases h
  | cons y ys ih =>
    rcases List.mem_cons.mp h with rfl | h2
    · exact le_trans (foldl_min_le ys (min a x)) (min_le_right a x)
    · exact ih (min a y) h2

lemma le_foldl_max (l : List ℚ) (a : ℚ) : a ≤ l.foldl max a := by
  induction l generalizing a with
  | nil => simp
  | cons x xs ih => exact le_trans (le_max_left a x) (ih (max a x))

lemma le_foldl_max_of_mem {l : List ℚ} {x : ℚ} (a : ℚ) (h : x ∈ l) :
    x ≤ l.foldl max a := by
  induction l generalizing a with
  | nil => cases h
  | cons y ys ih =>
    rcases List.mem_cons.mp h with rfl | h2
    · exact le_trans (le_max_right a x) (le_foldl_max ys (max a x))
    · exact ih (max a y) h2

lemma listMin_le_of_mem {l : List ℚ} {x : ℚ} (h : x ∈ l) : listMin l ≤ x := by
  cases l with
  | nil => cases h
  | cons y ys =>
    rcases List.mem_cons.mp h with rfl | h2
    · exact foldl_min_le ys x
    · exact foldl_min_le_of_mem y h2

lemma le_listMax_of_mem {l : List ℚ} {x : ℚ} (h : x ∈ l) : x ≤ listMax l := by
  cases l with
  | nil => cases h
  | cons y ys =>
    rcases List.mem_cons.mp h with rfl | h2
    · exact le_foldl_max ys x
    · exact le_foldl_max_of_mem y h2

lemma getLastD_mem {l : List ℚ} (d : ℚ) (h : l ≠ []) : l.getLastD d ∈ l := by
  induction l with
  | nil => exact absurd rfl h
  | cons x xs ih =>
    cases xs with
    | nil => simp
    | cons y ys => simpa using Or.inr (ih (by simp))

lemma rsiGains_nonneg (c : List Candle) (i : ℕ) : 0 ≤ rsiGains c i := by
  unfold rsiGains
  apply List.sum_nonneg
  intro x hx
  simp only [List.mem_map] at hx
  obtain ⟨y, -, rfl⟩ := hx
  split_ifs with h
  · exact h
  · exact le_refl 0

lemma rsiLosses_nonneg (c : List Candle) (i : ℕ) : 0 ≤ rsiLosses c i := by
  unfold rsiLosses
  apply List.sum_nonneg
  intro x hx
  simp only [List.mem_map] at hx
  obtain ⟨y, -, rfl⟩ := hx
  split_ifs with h
  · exact le_refl 0
  · linarith [lt_of_not_le h]

lemma calculateRSIValue_bounds (c : List Candle) (i : ℕ) :
    0 ≤ calculateRSIValue c i ∧ calculateRSIValue c i ≤ 100 := by
  unfold calculateRSIValue
  split_ifs with h1 h2
  · norm_num
  · norm_num
  · have hg := rsiGains_nonneg c i
    have hl := rsiLosses_nonneg c i
    have hlpos : 0 < rsiLosses c i := lt_of_le_of_ne hl (Ne.symm h2)
    have hrs0 : 0 ≤ (rsiGains c i / 14) / (rsiLosses c i / 14) := by positivity
    have h1p : (0:ℚ) < 1 + (rsiGains c i / 14) / (rsiLosses c i / 14) := by linarith
    have hle : 100 / (1 + (rsiGains c i / 14) / (rsiLosses c i / 14)) ≤ 100 := by
      rw [div_le_iff h1p]; nlinarith
    have hpos : 0 < 100 / (1 + (rsiGains c i / 14) / (rsiLosses c i / 14)) := by positivity
    constructor <;> linarith

lemma rsiWindow_ne_nil (c : List Candle) (i : ℕ) : rsiWindow c i ≠ [] := by
  unfold rsiWindow
  have : ((List.range' (i - STOCH_PERIOD + 1) STOCH_PERIOD).map (calculateRSIValue c)).length
      = STOCH_PERIOD := by
    rw [List.length_map, List.length_range']
  intro he
  rw [he] at this
  simp at this

lemma calculateStochRSI_bounds (c : List Candle) (i : ℕ) :
    0 ≤ calculateStochRSI c i ∧ calculateStochRSI c i ≤ 100 := by
  unfold calculateStochRSI
  split_ifs with h1 h2
  · norm_num
  · norm_num
  · have hmem := getLastD_mem 0 (rsiWindow_ne_nil c i)
    have hminle : listMin (rsiWindow c i) ≤ (rsiWindow c i).getLastD 0 :=
      listMin_le_of_mem hmem
    have hlemax : (rsiWindow c i).getLastD 0 ≤ listMax (rsiWindow c i) :=
      le_listMax_of_mem hmem
    have hlt : listMin (rsiWindow c i) < listMax (rsiWindow c i) :=
      lt_of_le_of_ne (le_trans hminle hlemax) (fun e => h2 e.symm)
    have hd : 0 < listMax (rsiWindow c i) - listMin (rsiWindow c i) := by linarith
    have hq0 : 0 ≤ ((rsiWindow c i).getLastD 0 - listMin (rsiWindow c i)) /
        (listMax (rsiWindow c i) - listMin (rsiWindow c i)) := by
      apply div_nonneg (by linarith) hd.le
    have hq1 : ((rsiWindow c i).getLastD 0 - listMin (rsiWindow c i)) /
        (listMax (rsiWindow c i) - listMin (rsiWindow c i)) ≤ 1 := by
      rw [div_le_one hd]; linarith
    constructor <;> nlinarith

/-- Shared helper: the range guard of `detectSignal` returns the fixed
no-pattern result. -/
lemma detectSignal_out_of_range (c : List Candle) (i : ℕ)
    (h : i < RECENT_LOOKBACK ∨ (i : ℤ) > (c.length : ℤ) - 2) :
    detectSignal c i = ⟨SignalType.NONE, 50, 0⟩ := by
  unfold detectSignal
  rw [if_pos h]

lemma lowBelowLower_iff_real (x : ℚ) (b : BollingerBands) (hv : 0 ≤ b.variance) :
    lowBelowLower x b ↔ ((x : ℝ) < (b.middle : ℝ) - 2 * Real.sqrt (b.variance : ℝ)) := by
  have hvR : (0:ℝ) ≤ (b.variance : ℝ) := by exact_mod_cast hv
  have h24 : Real.sqrt (4 * (b.variance : ℝ)) = 2 * Real.sqrt (b.variance : ℝ) := by
    rw [show (4:ℝ) = 2 ^ 2 by norm_num, Real.sqrt_mul (by positivity) _,
      Real.sqrt_sq (by norm_num)]
  have hstd : BB_STD_DEV ^ 2 = (4:ℚ) := by norm_num [BB_STD_DEV]
  unfold lowBelowLower
  rw [hstd]
  constructor
  · rintro ⟨h1, h2⟩
    have h1R : (0:ℝ) < (b.middle : ℝ) - (x : ℝ) := by exact_mod_cast h1
    have h2R : 4 * (b.variance : ℝ) < ((b.middle : ℝ) - (x : ℝ)) ^ 2 := by
      exact_mod_cast h2
    have hs : Real.sqrt (4 * (b.variance : ℝ)) < (b.middle : ℝ) - (x : ℝ) :=
      (Real.sqrt_lt' h1R).mpr h2R
    rw [h24] at hs
    linarith
  · intro h
    have hsq : (0:ℝ) ≤ Real.sqrt (b.variance : ℝ) := Real.sqrt_nonneg _
    have h1R : (0:ℝ) < (b.middle : ℝ) - (x : ℝ) := by linarith
    have hs : Real.sqrt (4 * (b.variance : ℝ)) < (b.middle : ℝ) - (x : ℝ) := by
      rw [h24]; linarith
    have h2R : 4 * (b.variance : ℝ) < ((b.middle : ℝ) - (x : ℝ)) ^ 2 :=
      (Real.sqrt_lt' h1R).mp hs
    refine ⟨by exact_mod_cast h1R, by exact_mod_cast h2R⟩

lemma highAboveUpper_iff_real (x : ℚ) (b : BollingerBands) (hv : 0 ≤ b.variance) :
    highAboveUpper x b ↔ ((b.middle : ℝ) + 2 * Real.sqrt (b.variance : ℝ) < (x : ℝ)) := by
  have hvR : (0:ℝ) ≤ (b.variance : ℝ) := by exact_mod_cast hv
  have h24 : Real.sqrt (4 * (b.variance : ℝ)) = 2 * Real.sqrt (b.variance : ℝ) := by
    rw [show (4:ℝ) = 2 ^ 2 by norm_num, Real.sqrt_mul (by positivity) _,
      Real.sqrt_sq (by norm_num)]
  have hstd : BB_STD_DEV ^ 2 = (4:ℚ) := by norm_num [BB_STD_DEV]
  unfold highAboveUpper
  rw [hstd]
  constructor
  · rintro ⟨h1, h2⟩
    have h1R : (0:ℝ) < (x : ℝ) - (b.middle : ℝ) := by exact_mod_cast h1
    have h2R : 4 * (b.variance : ℝ) < ((x : ℝ) - (b.middle : ℝ)) ^ 2 := by
      exact_mod_cast h2
    have hs : Real.sqrt (4 * (b.variance : ℝ)) < (x : ℝ) - (b.middle : ℝ) :=
      (Real.sqrt_lt' h1R).mpr h2R
    rw [h24] at hs
    linarith
  · intro h
    have hsq : (0:ℝ) ≤ Real.sqrt (b.variance : ℝ) := Real.sqrt_nonneg _
    have h1R : (0:ℝ) < (x : ℝ) - (b.middle : ℝ) := by linarith
    have hs : Real.sqrt (4 * (b.variance : ℝ)) < (x : ℝ) - (b.middle : ℝ) := by
      rw [h24]; linarith
    have h2R : 4 * (b.variance : ℝ) < ((x : ℝ) - (b.middle : ℝ)) ^ 2 :=
      (Real.sqrt_lt' h1R).mp hs
    refine ⟨by exact_mod_cast h1R, by exact_mod_cast h2R⟩

/-- C2 (corrected): `calculateBollingerBands` returns the `none` sentinel
exactly when `index < BB_PERIOD` (that is `index < 20`, not `index < 19` as
claimed); for every in-range `index` with a value, the window has exactly 20
bars, the middle band is the 20-bar simple moving average of closes, the
stored variance is the population variance of the same window, and the
detector's comparisons against the lower and upper bands are exactly the
real-number comparisons against `middle − 2σ` and `middle + 2σ` with
`σ = √variance`. -/
theorem c2_bollinger_spec (c : List Candle) (i : ℕ) :
    (calculateBollingerBands c i = none ↔ i < BB_PERIOD) ∧
    (∀ b : BollingerBands, calculateBollingerBands c i = some b → i + 1 ≤ c.length →
      (bbWindow c i).length = BB_PERIOD ∧
      b.middle = ((bbWindow c i).map (fun x => x.close)).sum / (BB_PERIOD : ℚ) ∧
      b.variance = ((bbWindow c i).map (fun x => (x.close - b.middle) ^ 2)).sum / (BB_PERIOD : ℚ) ∧
      0 ≤ b.variance ∧
      (∀ q : ℚ,
        (lowBelowLower q b ↔ ((q : ℝ) < (b.middle : ℝ) - 2 * Real.sqrt (b.variance : ℝ))) ∧
        (highAboveUpper q b ↔ ((b.middle : ℝ) + 2 * Real.sqrt (b.variance : ℝ) < (q : ℝ))))) := by
  constructor
  · unfold calculateBollingerBands
    split_ifs with h
    · simp [h]
    · simp [h]
  · intro b hb hlen
    have hi : ¬ i < BB_PERIOD := by
      intro h
      unfold calculateBollingerBands at hb
      rw [if_pos h] at hb
      cases hb
    unfold calculateBollingerBands at hb
    rw [if_neg hi] at hb
    injection hb with hb
    subst hb
    have hl20 : (bbWindow c i).length = BB_PERIOD := by
      unfold bbWindow
      rw [List.length_take, List.length_drop]
      have h20 : BB_PERIOD = 20 := rfl
      omega
    have hvar : (0:ℚ) ≤
        ((bbWindow c i).map
          (fun x => (x.close - ((bbWindow c i).map (fun x => x.close)).sum / (BB_PERIOD : ℚ)) ^ 2)).sum /
          (BB_PERIOD : ℚ) := by
      apply div_nonneg _ (by norm_num)
      apply List.sum_nonneg
      intro x hx
      simp only [List.mem_map] at hx
      obtain ⟨y, -, rfl⟩ := hx
      positivity
    refine ⟨hl20, rfl, rfl, hvar, ?_⟩
    intro q
    exact ⟨lowBelowLower_iff_real q _ hvar, highAboveUpper_iff_real q _ hvar⟩

/-- C2 counterexample: with 20 bars available, index 19 (which is
`W_b − 1 = 19`, so the claim demands a numeric result) still returns the
`none` sentinel. -/
theorem c2_counterexample :
    (List.replicate 20 (flatC 100 1)).length = 20 ∧
    calculateBollingerBands (List.replicate 20 (flatC 100 1)) 19 = none := by
  constructor
  · decide
  · decide

/-- C2 witness: the amended theorem applied at a concrete flat 21-bar
sequence and index 20. -/
theorem c2_bollinger_spec_witness :
    (bbWindow (List.replicate 21 (flatC 100 1)) 20).length = BB_PERIOD :=
  ((c2_bollinger_spec (List.replicate 21 (flatC 100 1)) 20).2 ⟨100, 0⟩
    (by with_unfolding_all decide) (by decide)).1

/-- C6 (confirmed): for `index < RECENT_LOOKBACK` or `index > length − 2`
(over `ℤ`, as the JavaScript expression can be negative), `detectSignal`
returns the no-pattern result with kind `NONE` and score 0 (and the neutral
Stochastic-RSI 50). -/
theorem c6_out_of_range (c : List Candle) (i : ℕ)
    (h : i < RECENT_LOOKBACK ∨ (i : ℤ) > (c.length : ℤ) - 2) :
    detectSignal c i = ⟨SignalType.NONE, 50, 0⟩ :=
  detectSignal_out_of_range c i h

/-- C6 witness: the empty sequence at index 0. -/
theorem c6_out_of_range_witness : detectSignal [] 0 = ⟨SignalType.NONE, 50, 0⟩ :=
  c6_out_of_range [] 0 (Or.inl (by norm_num))

/-- C7 (confirmed): scanning any sequence shorter than 52 bars produces the
empty signal list (every loop index is below `RECENT_LOOKBACK`, so every
detection is `NONE`); the function is total, so no error can be raised. -/
theorem c7_short_scan_empty (c : List Candle) (h : c.length < 52) :
    scanForSignals c = [] := by
  unfold scanForSignals
  rw [List.filterMap_eq_nil_iff]
  intro i hi
  have hm := List.mem_range'_1.mp hi
  have hi50 : i < RECENT_LOOKBACK := by
    have : RECENT_LOOKBACK = 50 := rfl
    omega
  rw [detectSignal_out_of_range c i (Or.inl hi50)]
  simp

/-- C7 witness: the empty sequence. -/
theorem c7_short_scan_empty_witness : scanForSignals [] = [] :=
  c7_short_scan_empty [] (by norm_num)

/-- C9 (confirmed): the division-by-zero guards are defined branches — with
enough history, zero summed losses make the RSI return exactly 100, and a
flat RSI window makes the Stochastic-RSI return exactly 0. -/
theorem c9_division_guards (c : List Candle) (i : ℕ) :
    (RSI_PERIOD ≤ i → rsiLosses c i = 0 → calculateRSIValue c i = 100) ∧
    (RSI_PERIOD + STOCH_PERIOD ≤ i →
      listMax (rsiWindow c i) = listMin (rsiWindow c i) → calculateStochRSI c i = 0) := by
  constructor
  · intro h1 h2
    unfold calculateRSIValue
    rw [if_neg (Nat.not_lt.mpr h1), if_pos h2]
  · intro h1 h2
    unfold calculateStochRSI
    rw [if_neg (Nat.not_lt.mpr h1), if_pos h2]

/-- C9 witness: a constant-price sequence has zero losses (RSI 100 at index
14) and a flat RSI window (Stochastic-RSI 0 at index 28). -/
theorem c9_division_guards_witness :
    calculateRSIValue (List.replicate 15 (flatC 100 1)) 14 = 100 ∧
    calculateStochRSI (List.replicate 29 (flatC 100 1)) 28 = 0 :=
  ⟨(c9_division_guards (List.replicate 15 (flatC 100 1)) 14).1 (by norm_num)
      (by with_unfolding_all decide),
   (c9_division_guards (List.replicate 29 (flatC 100 1)) 28).2 (by norm_num)
      (by with_unfolding_all decide)⟩

/-- C5 (confirmed): for a valid bar sequence and an in-range index, the RSI
and the Stochastic-RSI both lie in `[0, 100]`.  (The bounds in fact hold for
arbitrary input, as the proof shows.) -/
theorem c5_indicator_bounds (c : List Candle) (i : ℕ)
    (hv : validSeq c) (hi : i < c.length) :
    0 ≤ calculateRSIValue c i ∧ calculateRSIValue c i ≤ 100 ∧
    0 ≤ calculateStochRSI c i ∧ calculateStochRSI c i ≤ 100 :=
  ⟨(calculateRSIValue_bounds c i).1, (calculateRSIValue_bounds c i).2,
   (calculateStochRSI_bounds c i).1, (calculateStochRSI_bounds c i).2⟩

/-- C5 witness: a one-bar valid sequence at index 0. -/
theorem c5_indicator_bounds_witness :
    0 ≤ calculateRSIValue [⟨0, 1, 1, 1, 1, 0⟩] 0 ∧
    calculateRSIValue [⟨0, 1, 1, 1, 1, 0⟩] 0 ≤ 100 ∧
    0 ≤ calculateStochRSI [⟨0, 1, 1, 1, 1, 0⟩] 0 ∧
    calculateStochRSI [⟨0, 1, 1, 1, 1, 0⟩] 0 ≤ 100 :=
  c5_indicator_bounds [⟨0, 1, 1, 1, 1, 0⟩] 0
    (by
      unfold validSeq
      refine ⟨?_, ?_⟩
      · intro b hb
        simp only [List.mem_singleton] at hb
        subst hb
        unfold validCandle
        norm_num
      · simp)
    (by norm_num)

lemma springScore_bounds (c : List Candle) (i : ℕ)
    (h : volMult c i > CLIMATIC_VOLUME_MULT) :
    0 ≤ springScore c i ∧ springScore c i ≤ 100 := by
  unfold springScore
  have hvm : (3:ℚ) < volMult c i := h
  have h1 : (10:ℚ) ≤ min 20 ((volMult c i - 2) * 10) :=
    le_min (by norm_num) (by linarith)
  have h2 : min 20 ((volMult c i - 2) * 10) ≤ 20 := min_le_left _ _
  constructor
  · apply le_min (by norm_num)
    split_ifs <;> linarith
  · exact le_trans (min_le_left _ _) (by norm_num)

lemma upthrustScore_bounds (c : List Candle) (i : ℕ)
    (h : volMult c i > CLIMATIC_VOLUME_MULT) :
    0 ≤ upthrustScore c i ∧ upthrustScore c i ≤ 100 := by
  unfold upthrustScore
  have hvm : (3:ℚ) < volMult c i := h
  have h1 : (10:ℚ) ≤ min 20 ((volMult c i - 2) * 10) :=
    le_min (by norm_num) (by linarith)
  have h2 : min 20 ((volMult c i - 2) * 10) ≤ 20 := min_le_left _ _
  constructor
  · apply le_min (by norm_num)
    split_ifs <;> linarith
  · exact le_trans (min_le_left _ _) (by norm_num)

lemma tweezersTopScore_bounds (c : List Candle) (i : ℕ) :
    0 ≤ tweezersTopScore c i ∧ tweezersTopScore c i ≤ 100 := by
  unfold tweezersTopScore
  split_ifs <;> norm_num

lemma tweezersBottomScore_bounds (c : List Candle) (i : ℕ) :
    0 ≤ tweezersBottomScore c i ∧ tweezersBottomScore c i ≤ 100 := by
  unfold tweezersBottomScore
  split_ifs <;> norm_num

lemma suddenUpScore_bounds (c : List Candle) (i : ℕ)
    (h : volMult c i > REVERSAL_VOLUME_MULT) :
    0 ≤ suddenUpScore c i ∧ suddenUpScore c i ≤ 100 := by
  unfold suddenUpScore
  have hvm : (2:ℚ) < volMult c i := h
  have h1 : (0:ℚ) ≤ min 25 ((volMult c i - 1) * 15) :=
    le_min (by norm_num) (by linarith)
  have h2 : min 25 ((volMult c i - 1) * 15) ≤ 25 := min_le_left _ _
  constructor <;> split_ifs <;> linarith

lemma suddenDownScore_bounds (c : List Candle) (i : ℕ)
    (h : volMult c i > REVERSAL_VOLUME_MULT) :
    0 ≤ suddenDownScore c i ∧ suddenDownScore c i ≤ 100 := by
  unfold suddenDownScore
  have hvm : (2:ℚ) < volMult c i := h
  have h1 : (0:ℚ) ≤ min 25 ((volMult c i - 1) * 15) :=
    le_min (by norm_num) (by linarith)
  have h2 : min 25 ((volMult c i - 1) * 15) ≤ 25 := min_le_left _ _
  constructor <;> split_ifs <;> linarith

lemma engulfScore_bounds (c : List Candle) (i : ℕ) :
    0 ≤ engulfScore c i ∧ engulfScore c i ≤ 100 := by
  unfold engulfScore
  split_ifs <;> norm_num

lemma hammerScore_bounds (c : List Candle) (i : ℕ) :
    0 ≤ hammerScore c i ∧ hammerScore c i ≤ 100 := by
  unfold hammerScore
  split_ifs <;> norm_num

lemma shootingStarScore_bounds (c : List Candle) (i : ℕ) :
    0 ≤ shootingStarScore c i ∧ shootingStarScore c i ≤ 100 := by
  unfold shootingStarScore
  split_ifs <;> norm_num

lemma dojiScore_bounds (c : List Candle) (i : ℕ) :
    0 ≤ dojiScore c i ∧ dojiScore c i ≤ 100 := by
  unfold dojiScore
  split_ifs <;> norm_num

/-- C1 (corrected): the score of every detection — in particular of every
non-empty detection — lies within `[0, 100]`.  The integrality part of the
claim is false; see `c1_counterexample`. -/
theorem c1_score_in_range (c : List Candle) (i : ℕ) :
    0 ≤ (detectSignal c i).score ∧ (detectSignal c i).score ≤ 100 := by
  unfold detectSignal
  by_cases hg : i < RECENT_LOOKBACK ∨ (i : ℤ) > (c.length : ℤ) - 2
  · rw [if_pos hg]
    exact ⟨le_refl 0, by norm_num⟩
  rw [if_neg hg]
  by_cases hr : (getC c i).high - (getC c i).low = 0
  · rw [if_pos hr]
    exact ⟨le_refl 0, by norm_num⟩
  rw [if_neg hr]
  by_cases hsp : springCond c i
  · rw [if_pos hsp]
    exact springScore_bounds c i (by unfold springCond at hsp; exact hsp.2.2.2.1)
  rw [if_neg hsp]
  by_cases hup : upthrustCond c i
  · rw [if_pos hup]
    exact upthrustScore_bounds c i (by unfold upthrustCond at hup; exact hup.2.2.2.1)
  rw [if_neg hup]
  by_cases htt : tweezersTopCond c i
  · rw [if_pos htt]
    exact tweezersTopScore_bounds c i
  rw [if_neg htt]
  by_cases htb : tweezersBottomCond c i
  · rw [if_pos htb]
    exact tweezersBottomScore_bounds c i
  rw [if_neg htb]
  by_cases hsu : suddenUpCond c i
  · rw [if_pos hsu]
    exact suddenUpScore_bounds c i (by unfold suddenUpCond at hsu; exact hsu.2.2.2.2.2)
  rw [if_neg hsu]
  by_cases hsd : suddenDownCond c i
  · rw [if_pos hsd]
    exact suddenDownScore_bounds c i (by unfold suddenDownCond at hsd; exact hsd.2.2.2.2.2)
  rw [if_neg hsd]
  by_cases hbe1 : bullishEngulfCond c i
  · rw [if_pos hbe1]
    exact engulfScore_bounds c i
  rw [if_neg hbe1]
  by_cases hbe2 : bearishEngulfCond c i
  · rw [if_pos hbe2]
    exact engulfScore_bounds c i
  rw [if_neg hbe2]
  by_cases hha : hammerCond c i
  · rw [if_pos hha]
    exact hammerScore_bounds c i
  rw [if_neg hha]
  by_cases hss : shootingStarCond c i
  · rw [if_pos hss]
    exact shootingStarScore_bounds c i
  rw [if_neg hss]
  by_cases hdj : dojiCond c i
  · rw [if_pos hdj]
    exact dojiScore_bounds c i
  rw [if_neg hdj]
  exact ⟨le_refl 0, by norm_num⟩

/-- C1 counterexample: at index 51 of `revSeq` the detector fires the
sudden-reversal-up rule with `volMult = 2.5`, giving the non-integral score
`82.5 = 165/2` (denominator 2), so the score is not always an integer. -/
theorem c1_counterexample :
    (detectSignal revSeq 51).type ≠ SignalType.NONE ∧
    (detectSignal revSeq 51).score = 165/2 ∧
    (detectSignal revSeq 51).score.den = 2 := by
  refine ⟨?_, ?_, ?_⟩
  · with_unfolding_all decide
  · with_unfolding_all decide
  · with_unfolding_all decide

/-- C4 (confirmed): whenever the institutional-spring conditions (rule 1) and
the doji conditions (rule 11) hold simultaneously at an in-range index of a
bar with a data-model-valid high, the detector returns INSTITUTIONAL_SPRING:
rule 1 is evaluated first and its branch returns immediately.  Each index
yields at most one signal by construction, since `detectSignal` returns a
single record. -/
theorem c4_priority_spring (c : List Candle) (i : ℕ)
    (h50 : RECENT_LOOKBACK ≤ i) (hlen : (i : ℤ) ≤ (c.length : ℤ) - 2)
    (hvh : max (getC c i).«open» (getC c i).close ≤ (getC c i).high)
    (hsp : springCond c i) (hdj : dojiCond c i) :
    (detectSignal c i).type = SignalType.INSTITUTIONAL_SPRING := by
  have hg : ¬ (i < RECENT_LOOKBACK ∨ (i : ℤ) > (c.length : ℤ) - 2) := by
    push_neg
    exact ⟨h50, hlen⟩
  have hwick : lowerWick c i > currBody c i * ULTRA_WICK_MULT := by
    unfold springCond at hsp
    exact hsp.2.1
  have hbody : (0:ℚ) < currBody c i := by
    unfold currBody
    exact lt_of_lt_of_le (by norm_num) (le_max_left _ _)
  have hu : ULTRA_WICK_MULT = (3:ℚ) := rfl
  rw [hu] at hwick
  have hr : ¬ ((getC c i).high - (getC c i).low = 0) := by
    intro h0
    have hlw : 0 < lowerWick c i := by linarith
    unfold lowerWick at hlw
    have hminmax : min (getC c i).«open» (getC c i).close ≤
        max (getC c i).«open» (getC c i).close := min_le_max
    linarith
  unfold detectSignal
  rw [if_neg hg, if_neg hr, if_pos hsp]

/-- C4 witness: `springSeq` satisfies both rule 1 and rule 11 at index 51 and
the detector returns the spring. -/
theorem c4_priority_spring_witness :
    (detectSignal springSeq 51).type = SignalType.INSTITUTIONAL_SPRING :=
  c4_priority_spring springSeq 51 (by norm_num) (by decide)
    (by with_unfolding_all decide) (by with_unfolding_all decide)
    (by with_unfolding_all decide)

/-- C8 (confirmed): under the Scenario-B hypotheses — in-range index, valid
high, lower wick above 3x the body, low piercing both the 50-bar recent low
and the Bollinger lower band, volume exactly 4x a positive 50-bar average,
Stochastic-RSI exactly 10, and the next close recovering above the low — the
detector returns INSTITUTIONAL_SPRING with score exactly
`min(95, 60 + 20 + 10 + 10) = 95`. -/
theorem c8_spring_score (c : List Candle) (i : ℕ)
    (h50 : RECENT_LOOKBACK ≤ i) (hlen : (i : ℤ) ≤ (c.length : ℤ) - 2)
    (hvh : max (getC c i).«open» (getC c i).close ≤ (getC c i).high)
    (hwick : lowerWick c i > currBody c i * ULTRA_WICK_MULT)
    (hdeep : (getC c i).low < recentLow c i)
    (hband : optLowBelowLower (calculateBollingerBands c i) (getC c i).low)
    (havg : 0 < avgVol c i)
    (hvol : (getC c i).volume = 4 * avgVol c i)
    (hstoch : calculateStochRSI c i = 10)
    (hnext : (getC c (i + 1)).close > (getC c i).low) :
    detectSignal c i = ⟨SignalType.INSTITUTIONAL_SPRING, 10, 95⟩ := by
  have hvm : volMult c i = 4 := by
    unfold volMult
    rw [hvol]
    field_simp
  have hbbne : calculateBollingerBands c i ≠ none := by
    intro he
    rw [he] at hband
    exact hband
  have hsp : springCond c i := by
    unfold springCond
    refine ⟨hbbne, hwick, ?_, ?_, hdeep, hband, hnext⟩
    · rw [hstoch]; norm_num
    · rw [hvm]; norm_num [CLIMATIC_VOLUME_MULT]
  have hg : ¬ (i < RECENT_LOOKBACK ∨ (i : ℤ) > (c.length : ℤ) - 2) := by
    push_neg
    exact ⟨h50, hlen⟩
  have hbody : (0:ℚ) < currBody c i := by
    unfold currBody
    exact lt_of_lt_of_le (by norm_num) (le_max_left _ _)
  have hu : ULTRA_WICK_MULT = (3:ℚ) := rfl
  have hwick3 : lowerWick c i > currBody c i * 3 := by rw [← hu]; exact hwick
  have hr : ¬ ((getC c i).high - (getC c i).low = 0) := by
    intro h0
    have hlw : 0 < lowerWick c i := by linarith
    unfold lowerWick at hlw
    have hminmax : min (getC c i).«open» (getC c i).close ≤
        max (getC c i).«open» (getC c i).close := min_le_max
    linarith
  have hscore : springScore c i = 95 := by
    unfold springScore
    rw [hvm, hstoch, if_pos hdeep, if_pos (by norm_num : (10:ℚ) < 15)]
    norm_num [min_def]
  unfold detectSignal
  rw [if_neg hg, if_neg hr, if_pos hsp, hscore, hstoch]

/-- C8 witness: `springSeq` at index 51 satisfies all Scenario-B hypotheses
and scores exactly 95. -/
theorem c8_spring_score_witness :
    detectSignal springSeq 51 = ⟨SignalType.INSTITUTIONAL_SPRING, 10, 95⟩ :=
  c8_spring_score springSeq 51 (by norm_num) (by decide)
    (by with_unfolding_all decide) (by with_unfolding_all decide)
    (by with_unfolding_all decide) (by with_unfolding_all decide)
    (by with_unfolding_all decide) (by with_unfolding_all decide)
    (by with_unfolding_all decide) (by with_unfolding_all decide)

/-- C3 (corrected): under the Scenario-C hypotheses — matching highs within
the 0.0001 relative tolerance, previous bar bullish, current bar bearish,
Stochastic-RSI exactly 92, current high at or above the 50-bar recent high,
a data-model-valid current bar, and the higher-priority upthrust rule not
matching — the detector returns TWEEZERS_TOP with score
`50 + 15 + volumeBonus + (10 if the relative difference is below 0.00005,
else 0)`; the unconditional `+10` of the claim is refuted by
`c3_counterexample`. -/
theorem c3_tweezers_top (c : List Candle) (i : ℕ)
    (h50 : RECENT_LOOKBACK ≤ i) (hlen : (i : ℤ) ≤ (c.length : ℤ) - 2)
    (hvh : max (getC c i).«open» (getC c i).close ≤ (getC c i).high)
    (hvl : (getC c i).low ≤ min (getC c i).«open» (getC c i).close)
    (hdiff : tweezerHighsDiff c i < TWEEZER_TOLERANCE)
    (hprevBull : (getC c (i - 1)).close > (getC c (i - 1)).«open»)
    (hcurrBear : (getC c i).close < (getC c i).«open»)
    (hstoch : calculateStochRSI c i = 92)
    (hhigh : (getC c i).high ≥ recentHigh c i)
    (hnup : ¬ upthrustCond c i) :
    (detectSignal c i).type = SignalType.TWEEZERS_TOP ∧
    (detectSignal c i).score =
      50 + 15 + (if (getC c i).volume > avgVol c i * (3/2) then 15 else 0) +
        (if tweezerHighsDiff c i < 1/20000 then 10 else 0) := by
  have hg : ¬ (i < RECENT_LOOKBACK ∨ (i : ℤ) > (c.length : ℤ) - 2) := by
    push_neg
    exact ⟨h50, hlen⟩
  have hr : ¬ ((getC c i).high - (getC c i).low = 0) := by
    intro h0
    have h1 : (getC c i).«open» ≤ max (getC c i).«open» (getC c i).close :=
      le_max_left _ _
    have h2 : min (getC c i).«open» (getC c i).close ≤ (getC c i).close :=
      min_le_right _ _
    linarith
  have hns : ¬ springCond c i := by
    intro hs
    unfold springCond at hs
    have := hs.2.2.1
    rw [hstoch] at this
    norm_num at this
  have htt : tweezersTopCond c i := by
    unfold tweezersTopCond
    exact ⟨hdiff, hprevBull, hcurrBear, by rw [hstoch]; norm_num, hhigh⟩
  unfold detectSignal
  rw [if_neg hg, if_neg hr, if_neg hns, if_neg hnup, if_pos htt]
  refine ⟨rfl, ?_⟩
  show tweezersTopScore c i = _
  unfold tweezersTopScore
  rw [hstoch, if_pos (by norm_num : (92:ℚ) > 90)]

/-- C3 counterexample: `tweezSeq` at index 51 satisfies every Scenario-C
condition (relative highs difference exactly 0.00007 < 0.0001, previous bar
bullish, current bearish, Stochastic-RSI 92, high at the 50-bar recent high,
no volume bonus), yet the score is 65, not the claimed
`50 + 15 + volumeBonus + 10 = 75`: the `+10` requires the tighter 0.00005
tolerance. -/
theorem c3_counterexample :
    tweezerHighsDiff tweezSeq 51 < TWEEZER_TOLERANCE ∧
    ¬ tweezerHighsDiff tweezSeq 51 < 1/20000 ∧
    (getC tweezSeq 50).«open» < (getC tweezSeq 50).close ∧
    (getC tweezSeq 51).close < (getC tweezSeq 51).«open» ∧
    calculateStochRSI tweezSeq 51 = 92 ∧
    recentHigh tweezSeq 51 ≤ (getC tweezSeq 51).high ∧
    ¬ (getC tweezSeq 51).volume > avgVol tweezSeq 51 * (3/2) ∧
    (detectSignal tweezSeq 51).type = SignalType.TWEEZERS_TOP ∧
    (detectSignal tweezSeq 51).score = 65 ∧
    (detectSignal tweezSeq 51).score ≠ 50 + 15 + 0 + 10 := by
  refine ⟨?_, ?_, ?_, ?_, ?_, ?_, ?_, ?_, ?_, ?_⟩
  · with_unfolding_all decide
  · with_unfolding_all decide
  · with_unfolding_all decide
  · with_unfolding_all decide
  · with_unfolding_all decide
  · with_unfolding_all decide
  · with_unfolding_all decide
  · with_unfolding_all decide
  · with_unfolding_all decide
  · with_unfolding_all decide

/-- C3 witness: `tweezSeqTight` (exactly equal highs) satisfies all amended
hypotheses, and the amended score formula grants the `+10` there. -/
theorem c3_tweezers_top_witness :
    (detectSignal tweezSeqTight 51).type = SignalType.TWEEZERS_TOP ∧
    (detectSignal tweezSeqTight 51).score =
      50 + 15 +
        (if (getC tweezSeqTight 51).volume > avgVol tweezSeqTight 51 * (3/2) then 15 else 0) +
        (if tweezerHighsDiff tweezSeqTight 51 < 1/20000 then 10 else 0) :=
  c3_tweezers_top tweezSeqTight 51 (by norm_num) (by decide)
    (by with_unfolding_all decide) (by with_unfolding_all decide)
    (by with_unfolding_all decide) (by with_unfolding_all decide)
    (by with_unfolding_all decide) (by with_unfolding_all decide)
    (by with_unfolding_all decide) (by with_unfolding_all decide)

lemma calculateRSIValue_congr (c c' : List Candle) (k : ℕ)
    (h : ∀ j, k - 14 ≤ j → j ≤ k → getC c j = getC c' j) :
    calculateRSIValue c k = calculateRSIValue c' k := by
  by_cases hk : k < RSI_PERIOD
  · unfold calculateRSIValue
    rw [if_pos hk, if_pos hk]
  · have hP : RSI_PERIOD = 14 := rfl
    have hch : rsiChanges c k = rsiChanges c' k := by
      unfold rsiChanges
      apply List.map_congr_left
      intro j hj
      have hb := List.mem_range'_1.mp hj
      rw [h j (by omega) (by omega), h (j - 1) (by omega) (by omega)]
    unfold calculateRSIValue rsiGains rsiLosses
    rw [hch]

lemma calculateStochRSI_congr (c c' : List Candle) (i : ℕ)
    (h : ∀ j, i - 28 ≤ j → j ≤ i → getC c j = getC c' j) :
    calculateStochRSI c i = calculateStochRSI c' i := by
  by_cases hk : i < RSI_PERIOD + STOCH_PERIOD
  · unfold calculateStochRSI
    rw [if_pos hk, if_pos hk]
  · have hP : RSI_PERIOD = 14 := rfl
    have hS : STOCH_PERIOD = 14 := rfl
    have hw : rsiWindow c i = rsiWindow c' i := by
      unfold rsiWindow
      apply List.map_congr_left
      intro k hkmem
      have hb := List.mem_range'_1.mp hkmem
      apply calculateRSIValue_congr
      intro j hj1 hj2
      exact h j (by omega) (by omega)
    unfold calculateStochRSI
    rw [hw]

lemma drop_take_congr (c c' : List Candle) (a n : ℕ) (hlen : c.length = c'.length)
    (h : ∀ j, a ≤ j → j < a + n → getC c j = getC c' j) :
    (c.drop a).take n = (c'.drop a).take n := by
  apply List.ext_getElem
  · simp [hlen]
  · intro m h1 h2
    simp only [List.getElem_take, List.getElem_drop]
    have hm : a + m < c.length := by
      simp only [List.length_take, List.length_drop] at h1
      omega
    have hmn : m < n := by
      simp only [List.length_take, List.length_drop] at h1
      omega
    have he := h (a + m) (by omega) (by omega)
    unfold getC at he
    rw [List.getD_eq_getElem _ _ hm,
      List.getD_eq_getElem _ _ (by omega : a + m < c'.length)] at he
    exact he

/-- C10 (confirmed): `detectSignal` at `index` depends on no bar outside the
window `[index − 50, index + 1]`: two sequences of equal length agreeing on
that window (as total `getC` lookups) produce identical results.  Together
with the guard case — handled inside this theorem without using the
agreement hypothesis, and made explicit by `c6_out_of_range` — this shows
every bar position the detector reads lies within `[0, length − 1]`: when
the guard does not fire, `50 ≤ index` and `index + 1 ≤ length − 1`, so the
whole window is in bounds and no out-of-bounds access can influence the
result. -/
theorem c10_window_frame (c c' : List Candle) (i : ℕ)
    (hlen : c.length = c'.length)
    (hag : ∀ j, i - RECENT_LOOKBACK ≤ j → j ≤ i + 1 → getC c j = getC c' j) :
    detectSignal c i = detectSignal c' i := by
  have hR : RECENT_LOOKBACK = 50 := rfl
  by_cases hg : i < RECENT_LOOKBACK ∨ (i : ℤ) > (c.length : ℤ) - 2
  · have hg' : i < RECENT_LOOKBACK ∨ (i : ℤ) > (c'.length : ℤ) - 2 := by
      rw [← hlen]; exact hg
    unfold detectSignal
    rw [if_pos hg, if_pos hg']
  · push_neg at hg
    obtain ⟨h50, hlen2⟩ := hg
    have h0 : getC c i = getC c' i := hag i (by omega) (by omega)
    have h1 : getC c (i - 1) = getC c' (i - 1) := hag _ (by omega) (by omega)
    have h2 : getC c (i - 2) = getC c' (i - 2) := hag _ (by omega) (by omega)
    have h3 : getC c (i + 1) = getC c' (i + 1) := hag _ (by omega) (by omega)
    have hS : calculateStochRSI c i = calculateStochRSI c' i := by
      apply calculateStochRSI_congr
      intro j hj1 hj2
      exact hag j (by omega) (by omega)
    have hB : calculateBollingerBands c i = calculateBollingerBands c' i := by
      have hw : bbWindow c i = bbWindow c' i := by
        unfold bbWindow
        apply drop_take_congr c c' _ _ hlen
        intro j hj1 hj2
        have h20 : BB_PERIOD = 20 := rfl
        exact hag j (by omega) (by omega)
      unfold calculateBollingerBands
      rw [hw]
    have hRS : recentSlices c i = recentSlices c' i := by
      unfold recentSlices
      apply drop_take_congr c c' _ _ hlen
      intro j hj1 hj2
      exact hag j (by omega) (by omega)
    unfold detectSignal springCond upthrustCond tweezersTopCond tweezersBottomCond
      suddenUpCond suddenDownCond bullishEngulfCond bearishEngulfCond hammerCond
      shootingStarCond dojiCond springScore upthrustScore tweezersTopScore
      tweezersBottomScore suddenUpScore suddenDownScore engulfScore hammerScore
      shootingStarScore dojiScore currBody upperWick lowerWick prevBody volMult
      avgVol recentLow recentHigh tweezerHighsDiff tweezerLowsDiff
    rw [hlen]
    simp only [h0, h1, h2, h3, hS, hB, hRS]

/-- C10 witness: two 53-bar sequences differing only at index 52 (outside the
window of index 50) yield identical detections at index 50. -/
theorem c10_window_frame_witness :
    detectSignal frameSeqA 50 = detectSignal frameSeqB 50 :=
  c10_window_frame frameSeqA frameSeqB 50 (by decide)
    (by
      intro j hj1 hj2
      have hd : ∀ k ≤ 51, getC frameSeqA k = getC frameSeqB k := by decide
      exact hd j hj2)
